import Mathlib

/-!
Verification development for the gravity-claw Remote Action Orchestration Core.

The definitions below are a shallow embedding of the relevant TypeScript
sources:
  * src/tools/browser-control.ts — the Correlation Channel (WebSocket bridge
    with correlation-id keyed pending requests) and the browser tool gateway
    (desktop-control.ts repeats the identical channel pattern);
  * src/tools/site-memory.ts — the approved-destination store;
  * the Pending Approval store (requestApproval / hasPendingApproval);
  * config.ts (CentoOrchestrator) — decompose, validate and the ralphLoop
    watchdog pass.

JavaScript Maps are embedded as association lists with JS Map.set / get /
delete semantics (replace-in-place on an existing key, append otherwise,
insertion order preserved).  Timestamps and JS numbers used as times are
embedded as Int; JSON runtime values as an inductive Json type.  External
I/O (the WebSocket, the OpenAI call, the filesystem) is made explicit: each
embedded operation takes the outcome of the external call as an argument and
returns the state updates and emitted events the source performs.
-/

set_option autoImplicit false

namespace GClaw

/-! ### JS Map as an association list -/

section JsMap

variable {κ : Type} {α : Type} [DecidableEq κ]

/-- JS Map.get: first value stored under the key, if any. -/
def jsGet : List (κ × α) → κ → Option α
  | [], _ => none
  | (k₀, v₀) :: rest, k => if k₀ = k then some v₀ else jsGet rest k

/-- JS Map.set: replace the value in place when the key exists, append otherwise. -/
def jsSet : List (κ × α) → κ → α → List (κ × α)
  | [], k, v => [(k, v)]
  | (k₀, v₀) :: rest, k, v =>
      if k₀ = k then (k, v) :: rest else (k₀, v₀) :: jsSet rest k v

/-- JS Map.delete: drop the first entry stored under the key. -/
def jsDelete : List (κ × α) → κ → List (κ × α)
  | [], _ => []
  | (k₀, v₀) :: rest, k => if k₀ = k then rest else (k₀, v₀) :: jsDelete rest k

/-- Number of entries stored under a key (0 or 1 for a well-formed JS Map). -/
def countKey : List (κ × α) → κ → Nat
  | [], _ => 0
  | (k₀, _) :: rest, k => (if k₀ = k then 1 else 0) + countKey rest k

end JsMap

/-! ### JSON runtime values -/

/-- A JavaScript JSON value, as produced by JSON.parse. -/
inductive Json where
  | null
  | bool (b : Bool)
  | num (q : ℚ)
  | str (s : String)
  | arr (xs : List Json)
  | obj (fields : List (String × Json))

/-- Property read on a JSON value: some value for a present object field,
none (undefined) otherwise. -/
def jsonField (j : Json) (k : String) : Option Json :=
  match j with
  | .obj fs => jsGet fs k
  | _ => none

/-! ### Correlation Channel (browser-control.ts lines 13-99)

State of the module-level connection: the `ws` variable (open socket or
null), the `requestId` counter and the `pendingRequests` map.  The map
stores, per correlation id, the action name the closure captured (the
resolve and reject continuations are represented by the emitted CallEvent).
A call timeout timer is armed exactly while its entry is registered: the
entry is removed together with clearTimeout on a matching reply, and the
timeout callback itself removes the entry, so a Timeout event is only
deliverable for a registered id. -/

structure ChannelState where
  wsOpen : Bool
  requestId : Nat
  pending : List (String × String)
deriving DecidableEq, Repr

/-- Outcome delivered to a caller of bridgeCommand: the promise resolves
with the reply result or rejects with an Error message. -/
inductive CallEvent where
  | resolved (id : String) (result : Json)
  | rejected (id : String) (error : String)

/-- Inbound bridge reply as parsed from the wire. -/
structure BridgeMsg where
  id : String
  success : Bool
  result : Json
  error : Option String

/-- JS `msg.error || "Unknown bridge error"`: undefined and the empty string
are both falsy. -/
def errOrDefault (e : Option String) : String :=
  match e with
  | some s => if s = "" then "Unknown bridge error" else s
  | none => "Unknown bridge error"

/-- bridgeCommand dispatch (lines 82-99): bump requestId, build the
correlation id, register the Pending Call. -/
def dispatch (s : ChannelState) (action : String) : ChannelState × String :=
  let id := "req_" ++ toString (s.requestId + 1)
  ({ wsOpen := s.wsOpen
     requestId := s.requestId + 1
     pending := jsSet s.pending id action }, id)

/-- The message handler (lines 53-66): look the reply id up in
pendingRequests; when present delete it and settle that call, otherwise do
nothing. -/
def onMessage (s : ChannelState) (m : BridgeMsg) : ChannelState × Option CallEvent :=
  match jsGet s.pending m.id with
  | some _ =>
      ({ s with pending := jsDelete s.pending m.id },
       some (if m.success then .resolved m.id m.result
             else .rejected m.id (errOrDefault m.error)))
  | none => (s, none)

/-- The per-call timeout callback (lines 87-90): delete the entry and reject
with a timeout error.  Only deliverable while the entry is registered (see
the section comment). -/
def onTimeout (s : ChannelState) (id : String) : ChannelState × Option CallEvent :=
  match jsGet s.pending id with
  | some action =>
      ({ s with pending := jsDelete s.pending id },
       some (.rejected id ("Bridge command timeout: " ++ action)))
  | none => (s, none)

/-- The close handler (lines 68-71): set the ws variable to null and log.
No pending request is touched and no reconnection is attempted. -/
def onClose (s : ChannelState) : ChannelState × List CallEvent :=
  ({ s with wsOpen := false }, [])

/-! ### Pending Approval store (the approval module: requestApproval,
hasPendingApproval)

The module-level pendingActions Map keyed by chatId. -/

/-- One pending action awaiting user confirmation. -/
structure PendingAction where
  actionType : String
  description : String
  toolName : String
  toolArgs : List (String × String)
  timestamp : Int
deriving DecidableEq, Repr

/-- Approval expiry window: 5 minutes. -/
def APPROVAL_TIMEOUT_MS : Int := 5 * 60 * 1000

/-- The approval-requiring tool set. -/
def needsApproval (toolName : String) : Bool :=
  toolName ∈ ["gmail.send", "gmail.sendDraft"]

/-- JS string arg lookup with a falsy default: `(args[k] as string) || dflt`. -/
def argOr (args : List (String × String)) (k dflt : String) : String :=
  match jsGet args k with
  | some s => if s = "" then dflt else s
  | none => dflt

/-- The human-readable confirmation message built by requestApproval. -/
def buildDescription (toolArgs : List (String × String)) : String :=
  let toAddr := argOr toolArgs "to" "?"
  let subject := argOr toolArgs "subject" "(konu yok)"
  let bodyPreview := (argOr toolArgs "body" "").take 200
  "📧 E-posta göndermek istiyorum:\n\nKime: " ++ toAddr ++
    "\nKonu: " ++ subject ++
    "\nİçerik:\n" ++ bodyPreview ++ (if bodyPreview.length ≥ 200 then "..." else "") ++
    "\n\n✅ Onaylamak için \"gönder\" yaz\n❌ İptal etmek için \"iptal\" yaz\n⏱️ 5 dakika içinde yanıt vermezsen otomatik iptal olur."

/-- The entry requestApproval constructs before storing it. -/
def mkPendingAction (toolName : String) (toolArgs : List (String × String))
    (now : Int) : PendingAction :=
  { actionType := "email_send"
    description := buildDescription toolArgs
    toolName := toolName
    toolArgs := toolArgs
    timestamp := now }

/-- requestApproval: unconditionally store the new pending action under the
chat id (pendingActions.set) and send the confirmation message. -/
def requestApproval (store : List (Int × PendingAction)) (chatId : Int)
    (toolName : String) (toolArgs : List (String × String)) (now : Int) :
    List (Int × PendingAction) :=
  jsSet store chatId (mkPendingAction toolName toolArgs now)

/-- hasPendingApproval: look the chat id up; an expired entry is evicted
lazily and reported absent. -/
def hasPendingApproval (store : List (Int × PendingAction)) (chatId : Int)
    (now : Int) : Bool × List (Int × PendingAction) :=
  match jsGet store chatId with
  | none => (false, store)
  | some p =>
      if now - p.timestamp > APPROVAL_TIMEOUT_MS then (false, jsDelete store chatId)
      else (true, store)

/-! ### Site approval memory (site-memory.ts) -/

/-- Stored record for an approved domain. -/
structure SiteEntry where
  approvedAt : String
  count : Nat
deriving DecidableEq, Repr

/-- Characters after the first scheme separator, if one occurs. -/
def afterScheme : List Char → Option (List Char)
  | [] => none
  | c :: cs =>
      if [':', '/', '/'].isPrefixOf (c :: cs) then some (cs.drop 2)
      else afterScheme cs

/-- Host extraction: models `new URL(url.startsWith("http") ? url :
"https://" + url).hostname.toLowerCase()` for well-formed http(s) URLs, with
the catch branch returning the lowercased input. -/
def extractDomain (url : String) : String :=
  let u := if "http".data.isPrefixOf url.data then url.data
           else ("https://" ++ url).data
  match afterScheme u with
  | some rest =>
      String.mk ((rest.takeWhile
        (fun c => !(c == '/') && !(c == ':') && !(c == '?') && !(c == '#'))).map
          Char.toLower)
  | none => String.mk (url.data.map Char.toLower)

/-- isSiteApproved: the extracted domain is a key of the store. -/
def isSiteApproved (sites : List (String × SiteEntry)) (url : String) : Bool :=
  (jsGet sites (extractDomain url)).isSome

/-- approveSite: bump the count of an existing entry, or create one with
count 1 (approvedAt is the current date). -/
def approveSite (sites : List (String × SiteEntry)) (url today : String) :
    List (String × SiteEntry) :=
  let domain := extractDomain url
  match jsGet sites domain with
  | some e => jsSet sites domain { e with count := e.count + 1 }
  | none => jsSet sites domain { approvedAt := today, count := 1 }

/-- recordSiteAccess: bump the count of an existing entry, no-op otherwise. -/
def recordSiteAccess (sites : List (String × SiteEntry)) (url : String) :
    List (String × SiteEntry) :=
  let domain := extractDomain url
  match jsGet sites domain with
  | some e => jsSet sites domain { e with count := e.count + 1 }
  | none => sites

/-- Access counter currently stored for a domain. -/
def siteCount (sites : List (String × SiteEntry)) (domain : String) : Option Nat :=
  (jsGet sites domain).map (·.count)

/-! ### Remote Action Gateway (browser tools, browser-control.ts lines 103-330)

Each tool's execute function is embedded as a pure function of its
arguments, the current site store where relevant, and the outcome of the
awaited bridgeCommand call.  It returns whether the bridge call was
dispatched, the audit lines appended, the updated site store and the JSON
value returned to the agent. -/

/-- Outcome of the awaited bridgeCommand call, as seen by the tool. -/
inductive BridgeOutcome where
  | ok (result : Json)
  | err (msg : String)

/-- One line of the audit log: status tag, action name, detail truncated to
200 characters (auditLog lines 24-31). -/
structure AuditEntry where
  action : String
  detail : String
  status : String
deriving DecidableEq, Repr

/-- Build an audit entry the way auditLog does (detail.substring(0, 200)). -/
def mkAudit (action detail status : String) : AuditEntry :=
  { action := action, detail := detail.take 200, status := status }

/-- Value a tool returns to the agent. -/
inductive ToolResponse where
  | ok (j : Json)
  | err (e : String)
  | blocked (msg : String)

/-- Result of running one tool invocation. -/
structure ToolRun where
  dispatched : Bool
  audit : List AuditEntry
  sites : List (String × SiteEntry)
  response : ToolResponse

/-- browser_open (lines 127-153): already-approved site or approved flag →
dispatch; on success update the site store and audit APPROVED; on error
audit ERROR; otherwise return needsApproval with no audit line. -/
def browserOpen (sites : List (String × SiteEntry)) (today url : String)
    (approved : Bool) (bridge : BridgeOutcome) : ToolRun :=
  let alreadyApproved := isSiteApproved sites url
  if alreadyApproved || approved then
    match bridge with
    | .ok r =>
        { dispatched := true
          audit := [mkAudit "BROWSER_OPEN" url "APPROVED"]
          sites := if !alreadyApproved then approveSite sites url today
                   else recordSiteAccess sites url
          response := .ok r }
    | .err e =>
        { dispatched := true
          audit := [mkAudit "BROWSER_OPEN" url ("ERROR: " ++ e)]
          sites := sites
          response := .err e }
  else
    { dispatched := false, audit := [], sites := sites
      response := .blocked "Bu site henüz onaylanmamış. Kullanıcıdan onay alın." }

/-- browser_screenshot (lines 157-180): no approval gate; audit AUTO on
success only — the catch branch writes no audit line. -/
def browserScreenshot (sites : List (String × SiteEntry))
    (bridge : BridgeOutcome) : ToolRun :=
  match bridge with
  | .ok r =>
      { dispatched := true, audit := [mkAudit "BROWSER_SCREENSHOT" "captured" "AUTO"]
        sites := sites, response := .ok r }
  | .err e =>
      { dispatched := true, audit := [], sites := sites, response := .err e }

/-- browser_click (lines 183-224): blocked without the approved flag (no
audit line); audit APPROVED on success and ERROR on failure. -/
def browserClick (sites : List (String × SiteEntry)) (target : String)
    (approved : Bool) (bridge : BridgeOutcome) : ToolRun :=
  if !approved then
    { dispatched := false, audit := [], sites := sites
      response := .blocked "Bu tıklama işlemi için kullanıcı onayı gerekli." }
  else
    match bridge with
    | .ok r =>
        { dispatched := true, audit := [mkAudit "BROWSER_CLICK" target "APPROVED"]
          sites := sites, response := .ok r }
    | .err e =>
        { dispatched := true
          audit := [mkAudit "BROWSER_CLICK" target ("ERROR: " ++ e)]
          sites := sites, response := .err e }

/-- browser_type (lines 227-273): blocked without the approved flag; audit
APPROVED on success only — the catch branch writes no audit line. -/
def browserType (sites : List (String × SiteEntry)) (selector text : String)
    (approved : Bool) (bridge : BridgeOutcome) : ToolRun :=
  if !approved then
    { dispatched := false, audit := [], sites := sites
      response := .blocked "Bu metin girişi için kullanıcı onayı gerekli." }
  else
    match bridge with
    | .ok r =>
        { dispatched := true
          audit := [mkAudit "BROWSER_TYPE" ("\"" ++ text.take 50 ++ "\" → " ++ selector) "APPROVED"]
          sites := sites, response := .ok r }
    | .err e =>
        { dispatched := true, audit := [], sites := sites, response := .err e }

/-- browser_read (lines 276-295): no approval gate; audit AUTO on success
only. -/
def browserRead (sites : List (String × SiteEntry)) (bridge : BridgeOutcome) :
    ToolRun :=
  match bridge with
  | .ok r =>
      { dispatched := true
        audit := [mkAudit "BROWSER_READ" "page content read" "AUTO"]
        sites := sites, response := .ok r }
  | .err e =>
      { dispatched := true, audit := [], sites := sites, response := .err e }

/-- browser_scroll (lines 298-328): no approval gate and no audit line on
any path. -/
def browserScroll (sites : List (String × SiteEntry)) (direction : String)
    (amount : Int) (bridge : BridgeOutcome) : ToolRun :=
  match bridge with
  | .ok r =>
      { dispatched := true, audit := [], sites := sites, response := .ok r }
  | .err e =>
      { dispatched := true, audit := [], sites := sites, response := .err e }

/-! ### CENTO Orchestrator (config.ts second part): task model -/

/-- Task and sub-task status. -/
inductive TaskStatus where
  | queued
  | running
  | validating
  | done
  | failed
  | stuck
deriving DecidableEq, Repr

/-- Task priority. -/
inductive TaskPriority where
  | critical
  | high
  | normal
  | low
deriving DecidableEq, Repr

/-- Worker role a sub-task is routed to. -/
inductive AgentRole where
  | orchestrator
  | coder
  | reviewer
  | researcher
  | scraper
deriving DecidableEq, Repr

/-- The ValidationResult shape declared in the source. -/
structure ValidationResult where
  passed : Bool
  reason : String
  confidence : ℚ
deriving DecidableEq, Repr

/-- A sub-task of a decomposed goal. -/
structure SubTask where
  id : String
  parentId : Option String
  title : String
  description : String
  role : AgentRole
  priority : TaskPriority
  status : TaskStatus
  expectedInput : String
  expectedOutput : String
  actualOutput : Option String
  validation : Option ValidationResult
  startedAt : Option Int
  completedAt : Option Int
  retries : Nat
  maxRetries : Nat
deriving DecidableEq, Repr

/-- A decomposed goal. -/
structure CentoTask where
  id : String
  title : String
  description : String
  priority : TaskPriority
  status : TaskStatus
  subTasks : List SubTask
  createdAt : Int
  completedAt : Option Int
  result : Option String
deriving DecidableEq, Repr

/-! ### Validator (CentoOrchestrator.validate, lines 391-428)

The judge call is external; the embedding takes whether an OpenAI client is
configured, the reply content (None models a missing content field) and the
outcome of JSON.parse on that content.  The source returns
`JSON.parse(content) as ValidationResult` — a type assertion with no runtime
schema check — so the embedded verdict is the raw JSON value. -/

/-- Outcome of JSON.parse on the judge reply: an exception or a value. -/
inductive JudgeParse where
  | throws
  | value (j : Json)

/-- A verdict object literal as the source writes it. -/
def mkVerdict (passed : Bool) (reason : String) (confidence : ℚ) : Json :=
  .obj [("passed", .bool passed), ("reason", .str reason),
        ("confidence", .num confidence)]

/-- JS falsiness of the reply content: undefined or the empty string. -/
def contentEmpty (content : Option String) : Bool :=
  match content with
  | none => true
  | some s => s.isEmpty

/-- CentoOrchestrator.validate: permissive fallback without a configured
client; fail-closed verdicts for missing content and parse exceptions; a
successfully parsed JSON value is returned as the verdict unchecked. -/
def validate (configured : Bool) (content : Option String)
    (parsed : JudgeParse) : Json :=
  if !configured then mkVerdict true "No validator available" ((1 : ℚ)/2)
  else if contentEmpty content then
    mkVerdict false "Empty validation response" 0
  else
    match parsed with
    | .value j => j
    | .throws =>
        mkVerdict false ("Parse error: " ++ (content.getD "").take 100) 0

/-! ### Decomposer (CentoOrchestrator.decompose, lines 293-383) -/

/-- One element of the parsed subtasks array. -/
structure RawSubtask where
  title : String
  description : String
  role : AgentRole
  expected_input : String
  expected_output : String
  max_retries : Option Nat
deriving DecidableEq, Repr

/-- Outcome of JSON.parse on the decomposition reply, reduced to the only
field the source reads: `parsed.subtasks` (None models an absent field, as
in `parsed.subtasks || []`). -/
inductive DecomposeParse where
  | throws
  | value (subtasksField : Option (List RawSubtask))

/-- Sub-task record built for the i-th parsed entry. -/
def mkSubTask (taskId : String) (priority : TaskPriority) (i : Nat)
    (st : RawSubtask) : SubTask :=
  { id := taskId ++ "_sub_" ++ toString i
    parentId := some taskId
    title := st.title
    description := st.description
    role := st.role
    priority := priority
    status := .queued
    expectedInput := st.expected_input
    expectedOutput := st.expected_output
    actualOutput := none
    validation := none
    startedAt := none
    completedAt := none
    retries := 0
    maxRetries := st.max_retries.getD 2 }

/-- Task built from the parsed subtasks field (empty when the field is
absent or empty). -/
def decomposeTask (now : Int) (title description : String)
    (priority : TaskPriority) (subtasksField : Option (List RawSubtask)) :
    CentoTask :=
  let taskId := "task_" ++ toString now
  { id := taskId
    title := title
    description := description
    priority := priority
    status := .queued
    subTasks := (subtasksField.getD []).enum.map
      (fun p => mkSubTask taskId priority p.1 p.2)
    createdAt := now
    completedAt := none
    result := none }

/-- CentoOrchestrator.decompose: empty content and parse exceptions are
thrown errors; otherwise the task is built and registered in activeTasks
(the new task id is fresh, so Map.set appends it). -/
def decompose (now : Int) (title description : String)
    (priority : TaskPriority) (content : Option String)
    (parsed : DecomposeParse) (activeTasks : List CentoTask) :
    Except String (CentoTask × List CentoTask) :=
  if contentEmpty content then
    .error "CENTO: Empty response from orchestrator model"
  else
    match parsed with
    | .throws =>
        .error ("CENTO: Failed to parse decomposition: " ++ (content.getD "").take 200)
    | .value subtasksField =>
        let task := decomposeTask now title description priority subtasksField
        .ok (task, activeTasks ++ [task])

/-! ### Watchdog (CentoOrchestrator.ralphLoop, lines 436-489)

The pass is embedded as a pure function of the current time and the
activeTasks map (a list of tasks in insertion order).  It returns the map
after the pass and the report lines pushed after the header; the Telegram
report is sent exactly when that list is nonempty. -/

/-- Stuck threshold: 15 minutes. -/
def STUCK_THRESHOLD : Int := 15 * 60 * 1000

/-- Guard of the stuck branch: a running sub-task whose truthy startedAt
lies more than the threshold in the past. -/
def stuckGuard (now : Int) (st : SubTask) : Bool :=
  decide (st.status = .running) &&
    (match st.startedAt with
     | some t => decide (t ≠ 0) && decide (now - t > STUCK_THRESHOLD)
     | none => false)

/-- The stuck assignment `st.status = "stuck"`. -/
def markStuck (st : SubTask) : SubTask :=
  { st with status := .stuck }

/-- Retry-or-escalate applied to a stuck sub-task, with the report line the
source pushes (the retry line shows the incremented counter). -/
def retryOrEscalate (st : SubTask) : SubTask × String :=
  if st.retries < st.maxRetries then
    ({ st with retries := st.retries + 1, status := .queued, startedAt := none },
     "   ↳ Retry " ++ toString (st.retries + 1) ++ "/" ++ toString st.maxRetries)
  else
    ({ st with status := .failed }, "   ↳ Max retry aşıldı, görev başarısız.")

/-- Report line for a detected stuck sub-task, with its elapsed minutes
(Math.round of the millisecond difference over 60000). -/
def stuckLine (now : Int) (st : SubTask) : String :=
  "⚠️ Takılan görev: " ++ st.title ++ " (" ++
    toString ((now - st.startedAt.getD 0 + 30000) / 60000) ++ "dk)"

/-- Per-sub-task step of the pass: a running sub-task past the threshold is
marked stuck and immediately retried or escalated; anything else is left
untouched. -/
def reconcileSubTask (now : Int) (st : SubTask) : SubTask × List String :=
  if stuckGuard now st then
    let r := retryOrEscalate (markStuck st)
    (r.1, [stuckLine now st, r.2])
  else (st, [])

/-- Result of processing one task in the pass. -/
structure TaskOutcome where
  task : CentoTask
  kept : Bool
  lines : List String
deriving Repr

/-- Roll-up on the reconciled sub-tasks (lines 466-479): all sub-tasks done
deletes the task from the map as done with its completion time set; any
failed sub-task marks the task failed but keeps it; otherwise the task is
kept with its reconciled sub-tasks. -/
def rollUp (now : Int) (task : CentoTask) (subs : List SubTask)
    (lines : List String) : TaskOutcome :=
  if subs.all (fun st => decide (st.status = .done)) then
    { task := { task with subTasks := subs, status := .done, completedAt := some now }
      kept := false
      lines := lines ++ ["✅ Tamamlandı: " ++ task.title] }
  else if subs.any (fun st => decide (st.status = .failed)) then
    { task := { task with subTasks := subs, status := .failed }
      kept := true
      lines := lines ++ ["❌ Başarısız: " ++ task.title] }
  else
    { task := { task with subTasks := subs }, kept := true, lines := lines }

/-- Per-task step of the pass: tasks already done or failed are skipped;
otherwise sub-tasks are reconciled and the roll-up runs on the result. -/
def reconcileTask (now : Int) (task : CentoTask) : TaskOutcome :=
  if task.status = .done ∨ task.status = .failed then
    { task := task, kept := true, lines := [] }
  else
    rollUp now task
      ((task.subTasks.map (reconcileSubTask now)).map Prod.fst)
      ((task.subTasks.map (reconcileSubTask now)).map Prod.snd).flatten

/-- One Ralph Loop pass: early return on an empty map, otherwise process
every task, dropping the ones deleted mid-pass. -/
def ralphLoop (now : Int) (tasks : List CentoTask) :
    List CentoTask × List String :=
  if tasks.isEmpty then (tasks, [])
  else
    let outs := tasks.map (reconcileTask now)
    ((outs.filter (fun o => o.kept)).map (fun o => o.task),
     (outs.map (fun o => o.lines)).flatten)

/-- Whether the pass sends the Telegram report (report.length > 1, the
header apart). -/
def ralphReportSent (now : Int) (tasks : List CentoTask) : Bool :=
  !(ralphLoop now tasks).2.isEmpty

/-- Test fixture: a sub-task whose worker run has permanently failed. -/
def failedSub : SubTask :=
  { id := "task_1_sub_0", parentId := some "task_1", title := "s1"
    description := "", role := .coder, priority := .normal, status := .failed
    expectedInput := "", expectedOutput := "", actualOutput := none
    validation := none, startedAt := none, completedAt := none
    retries := 2, maxRetries := 2 }

/-- Test fixture: a queued task whose only sub-task has failed. -/
def failedTaskFixture : CentoTask :=
  { id := "task_1", title := "T", description := "", priority := .normal
    status := .queued, subTasks := [failedSub], createdAt := 0
    completedAt := none, result := none }

/-! ## Association-list lemmas -/

section JsMapLemmas

variable {κ : Type} {α : Type} [DecidableEq κ]

theorem jsGet_jsSet_self (m : List (κ × α)) (k : κ) (v : α) :
    jsGet (jsSet m k v) k = some v := by
  induction m with
  | nil => simp [jsSet, jsGet]
  | cons p rest ih =>
      obtain ⟨k₀, v₀⟩ := p
      by_cases h : k₀ = k
      · simp [jsSet, h, jsGet]
      · simp [jsSet, h, jsGet, ih]

theorem countKey_jsSet_self (m : List (κ × α)) (k : κ) (v : α) :
    countKey (jsSet m k v) k = max (countKey m k) 1 := by
  induction m with
  | nil => simp [jsSet, countKey]
  | cons p rest ih =>
      obtain ⟨k₀, v₀⟩ := p
      by_cases h : k₀ = k
      · simp [jsSet, h, countKey]
      · simp [jsSet, h, countKey, ih]

theorem jsGet_eq_none_of_countKey_zero (m : List (κ × α)) (k : κ)
    (h : countKey m k = 0) : jsGet m k = none := by
  induction m with
  | nil => simp [jsGet]
  | cons p rest ih =>
      obtain ⟨k₀, v₀⟩ := p
      by_cases hk : k₀ = k
      · simp [countKey, hk] at h
      · simp [countKey, hk] at h
        simp [jsGet, hk, ih h]

theorem jsGet_jsDelete_self (m : List (κ × α)) (k : κ)
    (h : countKey m k ≤ 1) : jsGet (jsDelete m k) k = none := by
  induction m with
  | nil => simp [jsDelete, jsGet]
  | cons p rest ih =>
      obtain ⟨k₀, v₀⟩ := p
      by_cases hk : k₀ = k
      · simp [countKey, hk] at h
        simp [jsDelete, hk]
        exact jsGet_eq_none_of_countKey_zero rest k (by omega)
      · simp [countKey, hk] at h
        simp [jsDelete, hk, jsGet, ih h]

end JsMapLemmas

/-! ## Claim C3 — timeout rejects exactly once, late and unknown replies are
no-ops -/

/-- C3: for a registered Pending Call, firing the call's timeout rejects it
with a timeout error and removes the entry, after which a reply carrying
the same correlation id settles nothing and changes nothing; and any
inbound reply whose id is not registered leaves the state untouched and
settles no call. -/
theorem timeout_rejects_once_late_reply_noop :
    (∀ (s : ChannelState) (id action : String),
      jsGet s.pending id = some action → countKey s.pending id ≤ 1 →
      (onTimeout s id).2 =
        some (.rejected id ("Bridge command timeout: " ++ action)) ∧
      jsGet (onTimeout s id).1.pending id = none ∧
      (∀ m : BridgeMsg, m.id = id →
        onMessage (onTimeout s id).1 m = ((onTimeout s id).1, none))) ∧
    (∀ (s : ChannelState) (m : BridgeMsg),
      jsGet s.pending m.id = none → onMessage s m = (s, none)) := by
  constructor
  · intro s id action hget hcount
    have hdel : jsGet (jsDelete s.pending id) id = none :=
      jsGet_jsDelete_self s.pending id hcount
    refine ⟨?_, ?_, ?_⟩
    · simp [onTimeout, hget]
    · simp [onTimeout, hget, hdel]
    · intro m hm
      simp [onTimeout, hget, onMessage, hm, hdel]
  · intro s m hget
    simp [onMessage, hget]

/-- Witness for C3 at a concrete channel state with one registered call. -/
theorem timeout_rejects_once_late_reply_noop_witness :
    (onTimeout ⟨true, 1, [("req_1", "browser_navigate")]⟩ "req_1").2 =
      some (.rejected "req_1" "Bridge command timeout: browser_navigate") ∧
    onMessage ⟨true, 1, [("req_1", "browser_navigate")]⟩
        ⟨"req_9", true, Json.null, none⟩ =
      (⟨true, 1, [("req_1", "browser_navigate")]⟩, none) := by
  refine ⟨(timeout_rejects_once_late_reply_noop.1
      ⟨true, 1, [("req_1", "browser_navigate")]⟩ "req_1" "browser_navigate"
      (by simp [jsGet]) (by simp [countKey])).1,
    timeout_rejects_once_late_reply_noop.2
      ⟨true, 1, [("req_1", "browser_navigate")]⟩
      ⟨"req_9", true, Json.null, none⟩ (by simp [jsGet])⟩

/-! ## Claim C2 — behaviour on unexpected close -/

/-- C2 counterexample: a channel state with one registered Pending Call; the
close handler rejects nothing (no call event is emitted) and the Pending
Call stays registered, so pending calls do not fail immediately with a
connection-lost error on unexpected close. -/
theorem close_does_not_reject_counterexample :
    (onClose ⟨true, 1, [("req_1", "browser_navigate")]⟩).2 = [] ∧
    (onClose ⟨true, 1, [("req_1", "browser_navigate")]⟩).1.pending =
      [("req_1", "browser_navigate")] := by
  exact ⟨rfl, rfl⟩

/-- C2 amended: on unexpected close the connection variable is cleared and
no reconnection is attempted, but currently registered Pending Calls are
not rejected — each stays registered and later rejects exactly once with
its own per-call timeout error. -/
theorem close_keeps_pending (s : ChannelState) (id action : String)
    (hget : jsGet s.pending id = some action)
    (hcount : countKey s.pending id ≤ 1) :
    (onClose s).2 = [] ∧
    (onClose s).1.pending = s.pending ∧
    (onClose s).1.wsOpen = false ∧
    (onTimeout (onClose s).1 id).2 =
      some (.rejected id ("Bridge command timeout: " ++ action)) ∧
    jsGet (onTimeout (onClose s).1 id).1.pending id = none := by
  refine ⟨rfl, rfl, rfl, ?_, ?_⟩
  · simp [onClose, onTimeout, hget]
  · simp [onClose, onTimeout, hget, jsGet_jsDelete_self s.pending id hcount]

/-- Witness for the amended C2 at a concrete channel state. -/
theorem close_keeps_pending_witness :
    (onClose ⟨true, 1, [("req_1", "browser_navigate")]⟩).2 = [] ∧
    (onTimeout (onClose ⟨true, 1, [("req_1", "browser_navigate")]⟩).1 "req_1").2 =
      some (.rejected "req_1" "Bridge command timeout: browser_navigate") := by
  have h := close_keeps_pending ⟨true, 1, [("req_1", "browser_navigate")]⟩
    "req_1" "browser_navigate" (by simp [jsGet]) (by simp [countKey])
  exact ⟨h.1, h.2.2.2.1⟩

/-! ## Claim C1 — a second approval-requiring request for a user -/

/-- C1 counterexample: user 5 has an active (non-expired) pending approval
for gmail.send; a second approval-requiring request (gmail.sendDraft) is
neither rejected nor queued behind it — requestApproval silently replaces
the stored entry, so the one remaining Pending Approval carries the second
action, not the first. -/
theorem second_request_replaces_counterexample :
    (hasPendingApproval
        [(5, mkPendingAction "gmail.send" [("to", "a@b.c")] 0)] 5 1000).1 = true ∧
    needsApproval "gmail.sendDraft" = true ∧
    (jsGet (requestApproval
        [(5, mkPendingAction "gmail.send" [("to", "a@b.c")] 0)]
        5 "gmail.sendDraft" [("to", "x@y.z")] 1000) 5).map
      PendingAction.toolName = some "gmail.sendDraft" ∧
    (jsGet (requestApproval
        [(5, mkPendingAction "gmail.send" [("to", "a@b.c")] 0)]
        5 "gmail.sendDraft" [("to", "x@y.z")] 1000) 5).map
      PendingAction.toolName ≠ some "gmail.send" := by
  refine ⟨?_, ?_, ?_, ?_⟩
  · simp [hasPendingApproval, jsGet, mkPendingAction, APPROVAL_TIMEOUT_MS]
  · simp [needsApproval]
  · simp [requestApproval, jsSet, jsGet, mkPendingAction]
  · simp [requestApproval, jsSet, jsGet, mkPendingAction]

/-- C1 amended: a second approval-requiring request for a user while one is
pending silently replaces the stored entry — after the call exactly one
Pending Approval exists for the user and its stored action is the second
request's, not the first's. -/
theorem second_request_replaces (store : List (Int × PendingAction))
    (chatId now : Int) (toolName : String)
    (toolArgs : List (String × String))
    (hwf : countKey store chatId ≤ 1) :
    jsGet (requestApproval store chatId toolName toolArgs now) chatId =
      some (mkPendingAction toolName toolArgs now) ∧
    countKey (requestApproval store chatId toolName toolArgs now) chatId = 1 := by
  constructor
  · exact jsGet_jsSet_self store chatId _
  · rw [requestApproval, countKey_jsSet_self]
    omega

/-- Witness for the amended C1: the second request's entry is what remains,
exactly once, for the concrete store of the counterexample. -/
theorem second_request_replaces_witness :
    jsGet (requestApproval
        [(5, mkPendingAction "gmail.send" [("to", "a@b.c")] 0)]
        5 "gmail.sendDraft" [("to", "x@y.z")] 1000) 5 =
      some (mkPendingAction "gmail.sendDraft" [("to", "x@y.z")] 1000) ∧
    countKey (requestApproval
        [(5, mkPendingAction "gmail.send" [("to", "a@b.c")] 0)]
        5 "gmail.sendDraft" [("to", "x@y.z")] 1000) 5 = 1 :=
  second_request_replaces
    [(5, mkPendingAction "gmail.send" [("to", "a@b.c")] 0)]
    5 1000 "gmail.sendDraft" [("to", "x@y.z")] (by simp [countKey])

/-! ## Claim C8 — previously approved destination -/

/-- C8 counterexample: site.com is stored with access count 3; browser_open
with approved set to false still dispatches (no flag needed), but the
bridge call errors, and the stored counter stays 3 — it does not increase
by exactly 1 on every such invocation. -/
theorem approved_site_counter_counterexample :
    isSiteApproved [("site.com", ⟨"2026-01-01", 3⟩)] "site.com" = true ∧
    (browserOpen [("site.com", ⟨"2026-01-01", 3⟩)] "2026-10-11" "site.com"
        false (.err "socket hang up")).dispatched = true ∧
    siteCount (browserOpen [("site.com", ⟨"2026-01-01", 3⟩)] "2026-10-11"
        "site.com" false (.err "socket hang up")).sites "site.com" = some 3 := by
  refine ⟨?_, ?_, ?_⟩ <;> decide

/-- C8 amended: a browser_open whose normalized domain is already stored is
dispatched without requiring the approved flag; the stored access counter
increases by exactly 1 when the channel call succeeds, and is unchanged
when it errors. -/
theorem approved_site_dispatch_and_counter (sites : List (String × SiteEntry))
    (today url : String) (approved : Bool) (bridge : BridgeOutcome)
    (e : SiteEntry) (h : jsGet sites (extractDomain url) = some e) :
    (browserOpen sites today url approved bridge).dispatched = true ∧
    (∀ r, bridge = .ok r →
      siteCount (browserOpen sites today url approved bridge).sites
        (extractDomain url) = some (e.count + 1)) ∧
    (∀ msg, bridge = .err msg →
      (browserOpen sites today url approved bridge).sites = sites) := by
  have happ : isSiteApproved sites url = true := by
    simp [isSiteApproved, h]
  refine ⟨?_, ?_, ?_⟩
  · cases bridge <;> simp [browserOpen, happ]
  · rintro r rfl
    simp [browserOpen, happ, recordSiteAccess, h, siteCount,
      jsGet_jsSet_self]
  · rintro msg rfl
    simp [browserOpen, happ]

/-- Witness for the amended C8 at the concrete store of the counterexample,
with a succeeding channel call: the counter goes from 3 to 4. -/
theorem approved_site_dispatch_and_counter_witness :
    (browserOpen [("site.com", ⟨"2026-01-01", 3⟩)] "2026-10-11" "site.com"
        true (.ok Json.null)).dispatched = true ∧
    siteCount (browserOpen [("site.com", ⟨"2026-01-01", 3⟩)] "2026-10-11"
        "site.com" true (.ok Json.null)).sites
      (extractDomain "site.com") = some 4 := by
  have h := approved_site_dispatch_and_counter
    [("site.com", ⟨"2026-01-01", 3⟩)] "2026-10-11" "site.com" true
    (.ok Json.null) ⟨"2026-01-01", 3⟩ (by decide)
  exact ⟨h.1, h.2.1 Json.null rfl⟩

/-! ## Claim C5 — Validator fail-closed behaviour -/

/-- C5 counterexample: a judge reply that is valid JSON but not a verdict
object (the string content is the two-character array literal) is malformed,
yet the Validator returns it unchanged as the verdict — the result carries
neither a passed field equal to false nor a confidence field equal to 0. -/
theorem validate_malformed_counterexample :
    validate true (some "[]") (.value (Json.arr [])) = Json.arr [] ∧
    jsonField (Json.arr []) "passed" = none ∧
    jsonField (Json.arr []) "confidence" = none := by
  refine ⟨?_, rfl, rfl⟩
  have hne : contentEmpty (some "[]") = false := by decide
  simp [validate, hne]

/-- C5 amended: without a configured judging authority the verdict is
always-pass at confidence one half; with one configured, an empty reply or
a reply on which JSON parsing throws yields a failing verdict at confidence
0; a reply that parses as JSON is returned as the verdict without any
schema check. -/
theorem validate_fail_closed (content : Option String) (parsed : JudgeParse) :
    (validate false content parsed =
      mkVerdict true "No validator available" ((1 : ℚ)/2)) ∧
    (contentEmpty content = true →
      validate true content parsed =
        mkVerdict false "Empty validation response" 0) ∧
    (contentEmpty content = false →
      validate true content .throws =
        mkVerdict false ("Parse error: " ++ (content.getD "").take 100) 0) ∧
    (contentEmpty content = false → ∀ j, validate true content (.value j) = j) ∧
    (∀ (p : Bool) (r : String) (c : ℚ),
      jsonField (mkVerdict p r c) "passed" = some (.bool p) ∧
      jsonField (mkVerdict p r c) "confidence" = some (.num c)) := by
  refine ⟨?_, ?_, ?_, ?_, ?_⟩
  · simp [validate]
  · intro h
    simp [validate, h]
  · intro h
    simp [validate, h]
  · intro h j
    simp [validate, h]
  · intro p r c
    constructor <;> simp [mkVerdict, jsonField, jsGet]

/-- Witness for the amended C5: no authority configured, and a configured
authority with an empty reply, at concrete inputs. -/
theorem validate_fail_closed_witness :
    validate false (some "anything") .throws =
      mkVerdict true "No validator available" ((1 : ℚ)/2) ∧
    validate true none .throws =
      mkVerdict false "Empty validation response" 0 := by
  refine ⟨(validate_fail_closed (some "anything") .throws).1, ?_⟩
  exact (validate_fail_closed none .throws).2.1 rfl

/-! ## Claim C6 — one audit line per gateway invocation -/

/-- C6 counterexample: a browser_scroll invocation writes no audit line at
all, on success and on error alike, and a browser_screenshot invocation
whose channel call errors writes none either — not every invocation writes
exactly one audit line. -/
theorem scroll_no_audit_counterexample :
    (browserScroll [] "down" 500 (.ok Json.null)).audit = [] ∧
    (browserScroll [] "down" 500 (.err "socket hang up")).audit = [] ∧
    (browserScreenshot [] (.err "socket hang up")).audit = [] := by
  exact ⟨rfl, rfl, rfl⟩

/-- C6 amended: browser_open and browser_click write exactly one audit line
per dispatched invocation — with the action, a 200-character-truncated
detail and an APPROVED or ERROR outcome — on success and on channel error
alike; browser_screenshot, browser_read and browser_type write their single
AUTO or APPROVED line only on success; browser_scroll and blocked
(unapproved) invocations write no audit line. -/
theorem gateway_audit_lines (sites : List (String × SiteEntry))
    (today url target selector text direction : String) (amount : Int)
    (approved : Bool) (bridge : BridgeOutcome) :
    (browserOpen sites today url approved bridge).audit =
      (if isSiteApproved sites url || approved then
        [mkAudit "BROWSER_OPEN" url
          (match bridge with
           | .ok _ => "APPROVED"
           | .err e => "ERROR: " ++ e)]
       else []) ∧
    (browserClick sites target approved bridge).audit =
      (if approved then
        [mkAudit "BROWSER_CLICK" target
          (match bridge with
           | .ok _ => "APPROVED"
           | .err e => "ERROR: " ++ e)]
       else []) ∧
    (browserScreenshot sites bridge).audit =
      (match bridge with
       | .ok _ => [mkAudit "BROWSER_SCREENSHOT" "captured" "AUTO"]
       | .err _ => []) ∧
    (browserRead sites bridge).audit =
      (match bridge with
       | .ok _ => [mkAudit "BROWSER_READ" "page content read" "AUTO"]
       | .err _ => []) ∧
    (browserType sites selector text approved bridge).audit =
      (if approved then
        (match bridge with
         | .ok _ =>
            [mkAudit "BROWSER_TYPE"
              ("\"" ++ text.take 50 ++ "\" → " ++ selector) "APPROVED"]
         | .err _ => [])
       else []) ∧
    (browserScroll sites direction amount bridge).audit = [] := by
  refine ⟨?_, ?_, ?_, ?_, ?_, ?_⟩ <;>
    cases bridge <;> cases approved <;>
      simp [browserOpen, browserClick, browserScreenshot, browserRead,
        browserType, browserScroll] <;>
      by_cases happ : isSiteApproved sites url = true <;>
        simp [happ]

/-! ## Claim C7 — stuck detection with retry or escalation -/

/-- C7: a running sub-task whose elapsed running time exceeds the 15-minute
threshold at watchdog time is marked stuck and immediately retried —
requeued with retries incremented and its start time cleared when retries
are below maxRetries — or marked failed otherwise. -/
theorem stuck_subtask_requeue_or_fail (now : Int) (st : SubTask) (t : Int)
    (hr : st.status = .running) (hs : st.startedAt = some t) (h0 : t ≠ 0)
    (hth : now - t > STUCK_THRESHOLD) :
    reconcileSubTask now st =
      ((retryOrEscalate (markStuck st)).1,
       [stuckLine now st, (retryOrEscalate (markStuck st)).2]) ∧
    (st.retries < st.maxRetries →
      (reconcileSubTask now st).1.status = .queued ∧
      (reconcileSubTask now st).1.retries = st.retries + 1 ∧
      (reconcileSubTask now st).1.startedAt = none) ∧
    (¬ st.retries < st.maxRetries →
      (reconcileSubTask now st).1.status = .failed) := by
  have hg : stuckGuard now st = true := by
    simp [stuckGuard, hr, hs, h0, hth]
  refine ⟨by simp [reconcileSubTask, hg], ?_, ?_⟩
  · intro hlt
    simp [reconcileSubTask, hg, retryOrEscalate, markStuck, hlt]
  · intro hge
    simp [reconcileSubTask, hg, retryOrEscalate, markStuck, hge]

/-- Witness for C7: a concrete running sub-task started at time 1 with the
watchdog firing 16 minutes later, with one retry remaining. -/
theorem stuck_subtask_requeue_or_fail_witness :
    (reconcileSubTask (16 * 60 * 1000 + 1)
      { id := "t_sub_0", parentId := some "t", title := "s1", description := ""
        role := .coder, priority := .normal, status := .running
        expectedInput := "", expectedOutput := "", actualOutput := none
        validation := none, startedAt := some 1, completedAt := none
        retries := 0, maxRetries := 2 }).1.status = .queued ∧
    (reconcileSubTask (16 * 60 * 1000 + 1)
      { id := "t_sub_0", parentId := some "t", title := "s1", description := ""
        role := .coder, priority := .normal, status := .running
        expectedInput := "", expectedOutput := "", actualOutput := none
        validation := none, startedAt := some 1, completedAt := none
        retries := 0, maxRetries := 2 }).1.retries = 1 := by
  have h := stuck_subtask_requeue_or_fail (16 * 60 * 1000 + 1)
    { id := "t_sub_0", parentId := some "t", title := "s1", description := ""
      role := .coder, priority := .normal, status := .running
      expectedInput := "", expectedOutput := "", actualOutput := none
      validation := none, startedAt := some 1, completedAt := none
      retries := 0, maxRetries := 2 } 1
    rfl rfl (by decide) (by decide)
  exact ⟨(h.2.1 (by decide)).1, (h.2.1 (by decide)).2.1⟩

/-! ## Watchdog pass lemmas -/

theorem stuckGuard_reconcileSubTask (now : Int) (st : SubTask) :
    stuckGuard now (reconcileSubTask now st).1 = false := by
  by_cases hg : stuckGuard now st = true
  · simp only [reconcileSubTask, hg, if_true]
    rw [retryOrEscalate]
    split <;> simp [stuckGuard, markStuck]
  · simp only [reconcileSubTask, hg]
    simpa using hg

theorem reconcileSubTask_fixed (now : Int) (st : SubTask) :
    reconcileSubTask now (reconcileSubTask now st).1 =
      ((reconcileSubTask now st).1, []) := by
  rw [reconcileSubTask, stuckGuard_reconcileSubTask]
  simp

theorem reconcileTask_skip (now : Int) (t : CentoTask)
    (h : t.status = .done ∨ t.status = .failed) :
    reconcileTask now t = ⟨t, true, []⟩ := by
  simp [reconcileTask, h]

theorem map_reconcileSubTask_fixed (now : Int) (subs : List SubTask)
    (hfix : ∀ st ∈ subs, reconcileSubTask now st = (st, [])) :
    (subs.map (reconcileSubTask now)).map Prod.fst = subs ∧
    ((subs.map (reconcileSubTask now)).map Prod.snd).flatten = [] := by
  have hmap : subs.map (reconcileSubTask now) =
      subs.map (fun st => (st, ([] : List String))) :=
    List.map_congr_left hfix
  rw [hmap, List.map_map, List.map_map]
  constructor
  · exact (List.map_congr_left (fun x _ => rfl)).trans (List.map_id subs)
  · rw [List.flatten_eq_nil_iff]
    intro x hx
    obtain ⟨a, _, hax⟩ := List.mem_map.mp hx
    exact hax.symm

theorem rollUp_steady (now : Int) (t : CentoTask) (subs : List SubTask)
    (h1 : t.status ≠ .done) (h2 : t.status ≠ .failed)
    (hfix : ∀ st ∈ subs, reconcileSubTask now st = (st, []))
    (hall : subs.all (fun st => decide (st.status = .done)) = false)
    (hany : subs.any (fun st => decide (st.status = .failed)) = false) :
    reconcileTask now { t with subTasks := subs } =
      ⟨{ t with subTasks := subs }, true, []⟩ := by
  obtain ⟨hfst, hsnd⟩ := map_reconcileSubTask_fixed now subs hfix
  rw [reconcileTask, if_neg (by simp [h1, h2])]
  show rollUp now { t with subTasks := subs }
      ((subs.map (reconcileSubTask now)).map Prod.fst)
      ((subs.map (reconcileSubTask now)).map Prod.snd).flatten = _
  rw [hfst, hsnd, rollUp, if_neg (by simp [hall]), if_neg (by simp [hany])]

theorem reconcileTask_kept_fixed (now : Int) (t : CentoTask)
    (hk : (reconcileTask now t).kept = true) :
    reconcileTask now (reconcileTask now t).task =
      ⟨(reconcileTask now t).task, true, []⟩ := by
  by_cases hskip : t.status = .done ∨ t.status = .failed
  · rw [reconcileTask_skip now t hskip]
    exact reconcileTask_skip now t hskip
  · push_neg at hskip
    obtain ⟨h1, h2⟩ := hskip
    have hdef : reconcileTask now t =
        rollUp now t ((t.subTasks.map (reconcileSubTask now)).map Prod.fst)
          ((t.subTasks.map (reconcileSubTask now)).map Prod.snd).flatten := by
      rw [reconcileTask, if_neg (by simp [h1, h2])]
    set subs := (t.subTasks.map (reconcileSubTask now)).map Prod.fst with hsubs
    have hfixsubs : ∀ st ∈ subs, reconcileSubTask now st = (st, []) := by
      intro st hst
      rw [hsubs, List.map_map] at hst
      obtain ⟨a, _, ha⟩ := List.mem_map.mp hst
      rw [← ha]
      exact reconcileSubTask_fixed now a
    rw [hdef] at hk ⊢
    simp only [rollUp] at hk ⊢
    by_cases hall : subs.all (fun st => decide (st.status = .done)) = true
    · rw [if_pos hall] at hk
      exact absurd hk (by simp)
    · rw [if_neg (by simp [hall])] at hk ⊢
      by_cases hany : subs.any (fun st => decide (st.status = .failed)) = true
      · rw [if_pos hany]
        exact reconcileTask_skip now _ (Or.inr rfl)
      · rw [if_neg (by simp [hany])]
        exact rollUp_steady now t subs h1 h2 hfixsubs
          (by simpa using hall) (by simpa using hany)

theorem ralph_steady_list (now : Int) (l : List CentoTask)
    (h : ∀ x ∈ l, reconcileTask now x = ⟨x, true, []⟩) :
    ((l.map (reconcileTask now)).filter (fun o => o.kept)).map (fun o => o.task) = l ∧
    ((l.map (reconcileTask now)).map (fun o => o.lines)).flatten = [] := by
  induction l with
  | nil => simp
  | cons a rest ih =>
      have ha := h a (by simp)
      have hrest := ih (fun x hx => h x (by simp [hx]))
      simp only [List.map_cons, ha, List.filter_cons]
      constructor
      · simpa using hrest.1
      · simpa using hrest.2

theorem ralphLoop_steady (now : Int) (l : List CentoTask)
    (h : ∀ x ∈ l, reconcileTask now x = ⟨x, true, []⟩) :
    ralphLoop now l = (l, []) := by
  by_cases hemp : l.isEmpty = true
  · rw [ralphLoop, if_pos hemp]
  · rw [ralphLoop, if_neg (by simp [hemp])]
    obtain ⟨hfst, hsnd⟩ := ralph_steady_list now l h
    show (((l.map (reconcileTask now)).filter (fun o => o.kept)).map (fun o => o.task),
      ((l.map (reconcileTask now)).map (fun o => o.lines)).flatten) = (l, [])
    rw [hfst, hsnd]

theorem ralphLoop_single_empty (now : Int) (t : CentoTask)
    (hq1 : t.status ≠ .done) (hq2 : t.status ≠ .failed)
    (hsub : t.subTasks = []) :
    ralphLoop now [t] = ([], ["✅ Tamamlandı: " ++ t.title]) := by
  have hrt : reconcileTask now t =
      ⟨{ t with subTasks := [], status := .done, completedAt := some now },
       false, ["✅ Tamamlandı: " ++ t.title]⟩ := by
    rw [reconcileTask, if_neg (by simp [hq1, hq2])]
    rw [hsub]
    simp [rollUp]
  rw [ralphLoop, if_neg (by simp)]
  show ((([t].map (reconcileTask now)).filter (fun o => o.kept)).map (fun o => o.task),
    (([t].map (reconcileTask now)).map (fun o => o.lines)).flatten) = _
  rw [List.map_singleton, hrt]
  simp

/-! ## Claim C9 — watchdog pass idempotence -/

/-- C9: running the watchdog pass twice in succession with no state change
in between performs no additional transition on the second pass — the
active set is returned unchanged — and the second pass pushes no report
line, so no report is sent to the notification collaborator. -/
theorem ralphLoop_idempotent (now : Int) (tasks : List CentoTask) :
    ralphLoop now (ralphLoop now tasks).1 = ((ralphLoop now tasks).1, []) ∧
    ralphReportSent now (ralphLoop now tasks).1 = false := by
  have hmain : ralphLoop now (ralphLoop now tasks).1 = ((ralphLoop now tasks).1, []) := by
    apply ralphLoop_steady
    intro x hx
    rw [ralphLoop] at hx
    by_cases hemp : tasks.isEmpty = true
    · rw [if_pos hemp] at hx
      rw [List.isEmpty_iff] at hemp
      simp [hemp] at hx
    · rw [if_neg (by simp [hemp])] at hx
      obtain ⟨o, ho, hox⟩ := List.mem_map.mp hx
      have hof := List.mem_filter.mp ho
      obtain ⟨t, _, hto⟩ := List.mem_map.mp hof.1
      have hkept : o.kept = true := by simpa using hof.2
      have hkf := reconcileTask_kept_fixed now t (by rw [hto]; exact hkept)
      rw [hto] at hkf
      rw [← hox]
      exact hkf
  exact ⟨hmain, by simp [ralphReportSent, hmain]⟩

/-! ## Claim C4 — task roll-up and removal from the active set -/

/-- C4 counterexample: a queued task whose only sub-task has failed; after
one watchdog pass the task's status is failed, yet the task is still in the
active set, and it is still there after a further pass — a failed task is
never removed from the active set. -/
theorem failed_task_not_removed_counterexample :
    (ralphLoop 0 [failedTaskFixture]).1.map CentoTask.status =
      [TaskStatus.failed] ∧
    ((ralphLoop 0 (ralphLoop 0 [failedTaskFixture]).1).1.map
      CentoTask.status) = [TaskStatus.failed] := by
  constructor <;> decide

/-- C4 amended: after reconciling an active (not yet done or failed) task,
all sub-tasks done makes the task done and deletes it from the active set
in that same pass; at least one failed sub-task makes the task failed but
keeps it in the active set — a failed task is never removed, it is merely
skipped (no further transition, no report line) on every later pass. -/
theorem ralph_task_rollup (now : Int) (t : CentoTask)
    (h1 : t.status ≠ .done) (h2 : t.status ≠ .failed) :
    ((∀ st ∈ (reconcileTask now t).task.subTasks, st.status = .done) →
      (reconcileTask now t).task.status = .done ∧
      (reconcileTask now t).kept = false) ∧
    ((∃ st ∈ (reconcileTask now t).task.subTasks, st.status = .failed) →
      (reconcileTask now t).task.status = .failed ∧
      (reconcileTask now t).kept = true) ∧
    ((reconcileTask now t).task.status = .failed →
      reconcileTask now (reconcileTask now t).task =
        ⟨(reconcileTask now t).task, true, []⟩) := by
  have hdef : reconcileTask now t =
      rollUp now t ((t.subTasks.map (reconcileSubTask now)).map Prod.fst)
        ((t.subTasks.map (reconcileSubTask now)).map Prod.snd).flatten := by
    rw [reconcileTask, if_neg (by simp [h1, h2])]
  set subs := (t.subTasks.map (reconcileSubTask now)).map Prod.fst with hsubs
  rw [hdef]
  simp only [rollUp]
  by_cases hall : subs.all (fun st => decide (st.status = .done)) = true
  · rw [if_pos hall]
    refine ⟨fun _ => ⟨rfl, rfl⟩, ?_, ?_⟩
    · rintro ⟨st, hst, hfail⟩
      have := (List.all_eq_true.mp hall) st hst
      simp [hfail] at this
    · intro habs
      exact absurd habs (by simp)
  · rw [if_neg (by simp [hall])]
    by_cases hany : subs.any (fun st => decide (st.status = .failed)) = true
    · rw [if_pos hany]
      refine ⟨?_, fun _ => ⟨rfl, rfl⟩, ?_⟩
      · intro hdone
        refine absurd (List.all_eq_true.mpr ?_) hall
        intro st hst
        simpa using hdone st hst
      · intro _
        exact reconcileTask_skip now _ (Or.inr rfl)
    · rw [if_neg (by simp [hany])]
      refine ⟨?_, ?_, ?_⟩
      · intro hdone
        refine absurd (List.all_eq_true.mpr ?_) hall
        intro st hst
        simpa using hdone st hst
      · rintro ⟨st, hst, hfail⟩
        refine absurd (List.any_eq_true.mpr ⟨st, hst, by simpa using hfail⟩) hany
      · intro habs
        exact absurd habs h2

/-- Witness for the amended C4: the concrete fixture task becomes failed
and stays in the active set. -/
theorem ralph_task_rollup_witness :
    (reconcileTask 0 failedTaskFixture).task.status = TaskStatus.failed ∧
    (reconcileTask 0 failedTaskFixture).kept = true := by
  have h := ralph_task_rollup 0 failedTaskFixture (by decide) (by decide)
  exact h.2.1 (by decide)

/-! ## Claim C10 — decomposition with a missing or empty subtasks array -/

/-- C10: a decomposition reply that parses as JSON but has an absent or
empty subtasks array still creates and registers a queued task with an
empty sub-task list, and the next watchdog pass marks that task done (the
all-done check is vacuous), removes it from the active set and reports it
as completed. -/
theorem decompose_empty_subtasks_done (now now2 : Int)
    (title description : String) (priority : TaskPriority)
    (acts : List CentoTask) (content : String)
    (hc : contentEmpty (some content) = false) :
    ∀ fld ∈ ([none, some []] : List (Option (List RawSubtask))),
      decompose now title description priority (some content) (.value fld) acts =
        .ok (decomposeTask now title description priority fld,
             acts ++ [decomposeTask now title description priority fld]) ∧
      (decomposeTask now title description priority fld).subTasks = [] ∧
      (decomposeTask now title description priority fld).status = .queued ∧
      ralphLoop now2 [decomposeTask now title description priority fld] =
        ([], ["✅ Tamamlandı: " ++ title]) ∧
      ralphReportSent now2 [decomposeTask now title description priority fld] = true := by
  intro fld hfld
  have hf2 : fld = none ∨ fld = some [] := by simpa using hfld
  have hsub : (decomposeTask now title description priority fld).subTasks = [] := by
    rcases hf2 with rfl | rfl <;> simp [decomposeTask]
  have hloop := ralphLoop_single_empty now2
    (decomposeTask now title description priority fld)
    (by simp [decomposeTask]) (by simp [decomposeTask]) hsub
  refine ⟨?_, hsub, rfl, ?_, ?_⟩
  · simp [decompose, hc]
  · exact hloop
  · simp [ralphReportSent, hloop]

/-- Witness for C10 at concrete inputs: nonempty reply content whose parsed
object has no subtasks field. -/
theorem decompose_empty_subtasks_done_witness :
    decompose 1 "T" "d" .normal (some "x") (.value none) [] =
      .ok (decomposeTask 1 "T" "d" .normal none,
           [decomposeTask 1 "T" "d" .normal none]) ∧
    ralphLoop 2 [decomposeTask 1 "T" "d" .normal none] =
      ([], ["✅ Tamamlandı: " ++ "T"]) := by
  have h := decompose_empty_subtasks_done 1 2 "T" "d" .normal [] "x"
    (by decide) none (by simp)
  exact ⟨h.1, h.2.2.2.1⟩

end GClaw
